import Mathlib

/-!
# Verification of the astra database abstraction layer

A shallow embedding of the database core of the `astra` repository:

* `MysqlDriver` (src/Core/Database/Mysql.ts): networked, pooled driver;
* `SQLiteDriver` (src/Core/Database/Sqlite.ts): embedded file driver;
* `Database` (the unified client, the class with `getDriver`, `healthCheck`,
  `runMigrations`, `closeAll`, ...).

Stateful TypeScript is modelled by explicit state passing; rejected promises
and thrown exceptions are modelled by `Except Err`; JavaScript string
truthiness (`""` falsy) is modelled by comparison with the empty string.
Logging (`log.info` / `console.error`) is a side effect with no data flow
into any modelled claim and is omitted.
-/

namespace Astra

/-- Errors thrown / promise rejections, identified by their message. -/
abbrev Err := String

/-- A result row.  Row contents are opaque to all the code modelled here
(the drivers only move rows around and take lengths), so a row is a list of
(column, integer value) pairs — concrete enough to evaluate witnesses. -/
abbrev Row := List (String × Int)

/-- SQL text. -/
abbrev Sql := String

/-- Statement parameters. -/
abbrev Params := List Int

/-- The `DatabaseType` union from src/Config/Database.ts:
`type DatabaseType = "mysql" | "sqlite"`. -/
inductive DatabaseType where
  | mysql
  | sqlite
deriving DecidableEq, Repr

/-! ## Transaction-control model

`MysqlDriver.transaction` (Mysql.ts lines 163–179) and
`SQLiteDriver.transaction` (Sqlite.ts lines 122–132) drive the
begin/commit/rollback primitives of one connection.  The connection is
modelled as a `TxState`: durable (committed) writes, the pending writes of
an open transaction, and counters observing each primitive.  Writes are
opaque tokens (`Nat`). -/

/-- State of the single connection a transaction runs on. -/
structure TxState where
  /-- Writes made durable by a commit. -/
  committed : List Nat
  /-- Writes performed inside the currently open transaction, discarded by
  rollback, appended to `committed` by commit. -/
  pending : List Nat
  /-- Whether a transaction is currently open on the connection. -/
  txOpen : Bool
  /-- How many times `beginTransaction` succeeded. -/
  begins : Nat
  /-- How many times `commit` succeeded. -/
  commits : Nat
  /-- How many times `rollback` succeeded. -/
  rollbacks : Nat
  /-- How many times `connection.release()` ran (networked driver only). -/
  releases : Nat
deriving DecidableEq, Repr

/-- Fault injection for the transaction-control primitives: `some e` makes
the corresponding statement fail by throwing `e` (leaving the connection
state unchanged), `none` lets it succeed. -/
structure Faults where
  beginFails : Option Err
  commitFails : Option Err
  rollbackFails : Option Err
deriving DecidableEq, Repr

/-- All transaction-control primitives succeed. -/
def noFaults : Faults := ⟨none, none, none⟩

/-- The transactional callback, abstracted by its observable behaviour: the
writes it performs on the connection before finishing, and whether it
returns a value or raises. -/
structure Callback (α : Type) where
  writes : List Nat
  outcome : Except Err α

/-- `connection.beginTransaction()` / `exec "BEGIN TRANSACTION;"`: opens a
fresh transaction with no pending writes. -/
def beginTx (f : Faults) (st : TxState) : Except Err TxState :=
  match f.beginFails with
  | some e => .error e
  | none => .ok { st with txOpen := true, pending := [], begins := st.begins + 1 }

/-- Running the callback: its writes land in the pending set of the open
transaction (also the writes made before a raise — they are exactly the
partial writes a rollback must discard), then it returns or raises. -/
def runCb (cb : Callback α) (st : TxState) : TxState :=
  { st with pending := st.pending ++ cb.writes }

/-- `connection.commit()` / `exec "COMMIT;"`: publishes the pending writes. -/
def commitTx (f : Faults) (st : TxState) : Except Err TxState :=
  match f.commitFails with
  | some e => .error e
  | none => .ok { st with
      committed := st.committed ++ st.pending
      pending := []
      txOpen := false
      commits := st.commits + 1 }

/-- `connection.rollback()` / `exec "ROLLBACK;"`: discards the pending
writes. -/
def rollbackTx (f : Faults) (st : TxState) : Except Err TxState :=
  match f.rollbackFails with
  | some e => .error e
  | none => .ok { st with pending := [], txOpen := false, rollbacks := st.rollbacks + 1 }

/-- `MysqlDriver.transaction(callback)` (Mysql.ts lines 163–179), after the
pool connection has been acquired:

```
try {
  await connection.beginTransaction();
  const result = await callback(connection);
  await connection.commit();
  return result;
} catch (error) {
  await connection.rollback();
  throw error;
} finally {
  connection.release();
}
```

Note the JavaScript semantics of the catch block: if `connection.rollback()`
itself rejects, that rejection propagates and the `throw error` line never
runs; the `finally` block still runs. -/
def mysqlTransaction (f : Faults) (cb : Callback α) (st : TxState) :
    Except Err α × TxState :=
  let tryRes : Except Err α × TxState :=
    match beginTx f st with
    | .error e => (.error e, st)
    | .ok st1 =>
      let st2 := runCb cb st1
      match cb.outcome with
      | .error e => (.error e, st2)
      | .ok a =>
        match commitTx f st2 with
        | .error e => (.error e, st2)
        | .ok st3 => (.ok a, st3)
  let caught : Except Err α × TxState :=
    match tryRes with
    | (.ok a, s) => (.ok a, s)
    | (.error e, s) =>
      match rollbackTx f s with
      | .error e2 => (.error e2, s)
      | .ok s2 => (.error e, s2)
  (caught.1, { caught.2 with releases := caught.2.releases + 1 })

/-- `SQLiteDriver.transaction(callback)` (Sqlite.ts lines 122–132):

```
this.beginTransaction();
try {
  const result = await callback();
  this.commit();
  return result;
} catch (error) {
  this.rollback();
  throw error;
}
```

`beginTransaction()` runs before the try block; there is no `finally` and no
release (single embedded connection).  As in the networked driver, a throw
from `this.rollback()` propagates instead of the original error. -/
def sqliteTransaction (f : Faults) (cb : Callback α) (st : TxState) :
    Except Err α × TxState :=
  match beginTx f st with
  | .error e => (.error e, st)
  | .ok st1 =>
    let st2 := runCb cb st1
    let tryRes : Except Err α × TxState :=
      match cb.outcome with
      | .error e => (.error e, st2)
      | .ok a =>
        match commitTx f st2 with
        | .error e => (.error e, st2)
        | .ok st3 => (.ok a, st3)
    match tryRes with
    | (.ok a, s) => (.ok a, s)
    | (.error e, s) =>
      match rollbackTx f s with
      | .error e2 => (.error e2, s)
      | .ok s2 => (.error e, s2)

/-- A convenient all-zero initial connection state. -/
def tx0 : TxState :=
  { committed := [], pending := [], txOpen := false
    begins := 0, commits := 0, rollbacks := 0, releases := 0 }

example :
    mysqlTransaction (α := Nat) noFaults ⟨[7], .ok 42⟩ tx0 =
      (.ok 42,
        { committed := [7], pending := [], txOpen := false
          begins := 1, commits := 1, rollbacks := 0, releases := 1 }) := rfl

example :
    mysqlTransaction (α := Nat) noFaults ⟨[7], .error "boom"⟩ tx0 =
      (.error "boom",
        { committed := [], pending := [], txOpen := false
          begins := 1, commits := 0, rollbacks := 1, releases := 1 }) := rfl

example :
    (mysqlTransaction (α := Nat) ⟨none, none, some "rb"⟩ ⟨[7], .error "boom"⟩ tx0).1 =
      .error "rb" := rfl

/-! ## Driver result shaping

The SQLite driver (Sqlite.ts) wraps `bun:sqlite`; `stmt.all` returns the
rows of a SELECT and `stmt.run` returns `{ lastInsertRowid, changes }`.
The MySQL driver (Mysql.ts) wraps a `mysql2` pool.  Each driver model
carries the behaviour of the underlying backend as outcome functions from
(sql, params); the driver methods are defined on top of them exactly as in
the source. -/

/-- The summary record fabricated by the SQLite driver (Sqlite.ts lines
4–8): `{ insertId?, affectedRows?, changedRows? }`, always fully populated
by `query`/`execute`. -/
structure SQLiteQueryResult where
  insertId : Nat
  affectedRows : Nat
  changedRows : Nat
deriving DecidableEq, Repr

/-- The object returned by `bun:sqlite`'s `stmt.run`: the rowid of the last
inserted row (0 when the statement inserted nothing) and the number of rows
changed. -/
structure RunResult where
  lastInsertRowid : Nat
  changes : Nat
deriving DecidableEq, Repr

/-- The embedded driver, abstracted by the behaviour of its underlying
`bun:sqlite` connection on each statement. -/
structure SqliteModel where
  /-- Outcome of `conn.prepare(sql)` + `stmt.all(...parameters)`. -/
  allRows : Sql → Params → Except Err (List Row)
  /-- Outcome of `conn.prepare(sql)` + `stmt.run(...parameters)`. -/
  runRes : Sql → Params → Except Err RunResult

namespace SqliteModel

/-- `SQLiteDriver.query` (Sqlite.ts lines 43–65): runs `stmt.all`, resolves
with the rows plus the fabricated summary
`{ insertId: 0, affectedRows: result.length, changedRows: 0 }`;
rejects with the underlying error on failure. -/
def query (s : SqliteModel) (sql : Sql) (ps : Params) :
    Except Err (List Row × SQLiteQueryResult) :=
  match s.allRows sql ps with
  | .error e => .error e
  | .ok result =>
    .ok (result, { insertId := 0, affectedRows := result.length, changedRows := 0 })

/-- `SQLiteDriver.execute` (Sqlite.ts lines 68–90): runs `stmt.run`,
resolves with an empty row array plus
`{ insertId: Number(result.lastInsertRowid) || 0, affectedRows:
result.changes, changedRows: result.changes }`.  `Number(x) || 0` on the
(non-negative) rowid is the identity except that it pins 0 to 0, which the
`if` mirrors. -/
def execute (s : SqliteModel) (sql : Sql) (ps : Params) :
    Except Err (List Row × SQLiteQueryResult) :=
  match s.runRes sql ps with
  | .error e => .error e
  | .ok result =>
    .ok ([],
      { insertId := if result.lastInsertRowid = 0 then 0 else result.lastInsertRowid
        affectedRows := result.changes
        changedRows := result.changes })

/-- `SQLiteDriver.queryOne` (Sqlite.ts lines 93–104): destructures
`const [results] = await this.query(...)` and returns
`results.length > 0 ? results[0] : null`; any error from `query` is caught
and `null` is returned. -/
def queryOne (s : SqliteModel) (sql : Sql) (ps : Params) : Option Row :=
  match s.query sql ps with
  | .error _ => none
  | .ok (results, _) =>
    match results with
    | [] => none
    | r :: _ => some r

end SqliteModel

/-- The networked driver, abstracted by the behaviour of its `mysql2` pool
on each statement. -/
structure MysqlModel where
  /-- Outcome of `pool.query(sql, parameters)`: the row array (first
  component of the mysql2 `[rows, fields]` pair). -/
  queryRows : Sql → Params → Except Err (List Row)
  /-- Outcome of `pool.execute(sql, parameters)`. -/
  execRes : Sql → Params → Except Err Unit

namespace MysqlModel

/-- `MysqlDriver.query` (Mysql.ts lines 119–130): forwards to `pool.query`
and re-throws its error after logging. -/
def query (m : MysqlModel) (sql : Sql) (ps : Params) : Except Err (List Row) :=
  m.queryRows sql ps

/-- `MysqlDriver.queryOne` (Mysql.ts lines 147–154): destructures the rows
from `this.query` and returns `rows.length > 0 ? rows[0] : null`; an error
from `query` propagates. -/
def queryOne (m : MysqlModel) (sql : Sql) (ps : Params) :
    Except Err (Option Row) :=
  match m.query sql ps with
  | .error e => .error e
  | .ok rows =>
    match rows with
    | [] => .ok none
    | r :: _ => .ok (some r)

/-- `MysqlDriver.ping` (Mysql.ts lines 182–191): executes `SELECT 1` via the
pool, returns `true` on success and catches any failure to return `false` —
it never throws. -/
def ping (m : MysqlModel) : Bool :=
  match m.execRes "SELECT 1" [] with
  | .ok _ => true
  | .error _ => false

end MysqlModel

/-! ## The unified `Database` client

From the `Database` class (the unified client): a registry
`drivers : Map<DatabaseType, MysqlDriver | SQLiteDriver>` — modelled as one
optional slot per key, which is exactly how `initializeDrivers` populates
it — plus the active `defaultDriver` kind. -/

/-- A registry entry: one of the two driver classes. -/
inductive Driver where
  | mysqlD (m : MysqlModel)
  | sqliteD (s : SqliteModel)

/-- The unified client's state. -/
structure Client where
  mysqlDrv : Option MysqlModel
  sqliteDrv : Option SqliteModel
  defaultDriver : DatabaseType

namespace Client

/-- The message of the error `Database.getDriver` throws for a missing
driver (string interpolation of the driver kind elided to its name). -/
def unavailableMsg : DatabaseType → Err
  | .mysql => "Database driver 'mysql' is not available or not initialized"
  | .sqlite => "Database driver 'sqlite' is not available or not initialized"

/-- `Database.getDriver(driver)`: looks the kind up in the registry and
throws when absent. -/
def getDriver (c : Client) (t : DatabaseType) : Except Err Driver :=
  match t with
  | .mysql =>
    match c.mysqlDrv with
    | some m => .ok (.mysqlD m)
    | none => .error (unavailableMsg .mysql)
  | .sqlite =>
    match c.sqliteDrv with
    | some s => .ok (.sqliteD s)
    | none => .error (unavailableMsg .sqlite)

/-- `Database.getDefaultDriver()`: `getDriver(this.defaultDriver)`. -/
def getDefaultDriver (c : Client) : Except Err Driver :=
  c.getDriver c.defaultDriver

/-- `Database.query(sql, params)`: forwards to the active driver's `query`
and re-throws its error after logging.  Only the row component flows into
any modelled consumer (`queryOne` destructures `const [results] = ...`), so
the model returns the rows. -/
def query (c : Client) (sql : Sql) (ps : Params) : Except Err (List Row) :=
  match c.getDefaultDriver with
  | .error e => .error e
  | .ok (.mysqlD m) => m.query sql ps
  | .ok (.sqliteD s) =>
    match s.query sql ps with
    | .error e => .error e
    | .ok (rows, _) => .ok rows

/-- `Database.execute(sql, params)`: forwards to the active driver's
`execute` and re-throws its error. -/
def execute (c : Client) (sql : Sql) (ps : Params) : Except Err (List Row) :=
  match c.getDefaultDriver with
  | .error e => .error e
  | .ok (.mysqlD m) =>
    match m.execRes sql ps with
    | .error e => .error e
    | .ok _ => .ok []
  | .ok (.sqliteD s) =>
    match s.execute sql ps with
    | .error e => .error e
    | .ok (rows, _) => .ok rows

/-- `Database.queryOne(sql, params)`:

```
const [results] = await this.query<T>(sql, params);
const firstResult =
  Array.isArray(results) && results.length > 0 ? results[0] : undefined;
return firstResult !== undefined ? firstResult : null;
```

An empty result set yields the explicit `null` (`none`), a non-empty one
its first row; an error from `query` propagates. -/
def queryOne (c : Client) (sql : Sql) (ps : Params) : Except Err (Option Row) :=
  match c.query sql ps with
  | .error e => .error e
  | .ok results =>
    match results with
    | [] => .ok none
    | r :: _ => .ok (some r)

/-- `Database.transaction(callback)`: obtains the default driver (throwing
when unavailable); both driver classes define `transaction`, so the
`"transaction" in driver` capability probe always succeeds and the call is
delegated to the active driver's transaction primitive. -/
def transaction (c : Client) (f : Faults) (cb : Callback α) (st : TxState) :
    Except Err α × TxState :=
  match c.getDefaultDriver with
  | .error e => (.error e, st)
  | .ok (.mysqlD _) => mysqlTransaction f cb st
  | .ok (.sqliteD _) => sqliteTransaction f cb st

/-- `Database.healthCheck()`:

```
const health = {};
const activeType = this.getActiveDatabaseType();
const driver = this.getDefaultDriver();          // throws if unavailable
try {
  if (activeType === "mysql" && "ping" in driver) {
    health[activeType] = await driver.ping();
  } else {
    await driver.query("SELECT 1", []);
    health[activeType] = true;
  }
} catch {
  health[activeType] = false;
}
return health;
```

The result is the association list of keys set in `health`. -/
def healthCheck (c : Client) : Except Err (List (DatabaseType × Bool)) :=
  match c.getDefaultDriver with
  | .error e => .error e
  | .ok d =>
    let b : Bool :=
      match c.defaultDriver, d with
      | .mysql, .mysqlD m => m.ping
      | _, .mysqlD m =>
        match m.query "SELECT 1" [] with
        | .ok _ => true
        | .error _ => false
      | _, .sqliteD s =>
        match s.query "SELECT 1" [] with
        | .ok _ => true
        | .error _ => false
    .ok [(c.defaultDriver, b)]

/-- The record `Database.getStats()` builds (contents irrelevant to every
claim; only which branch ran and whether the call threw are observed). -/
inductive Stats where
  | mysqlStats
  | genericStats (t : DatabaseType)
deriving DecidableEq, Repr

/-- `Database.getStats()`: calls `this.getDefaultDriver()` (which throws
when the driver is unavailable), then reports the mysql driver's pool stats
or a generic availability record. -/
def getStats (c : Client) : Except Err Stats :=
  match c.getDefaultDriver with
  | .error e => .error e
  | .ok (.mysqlD _) =>
    match c.defaultDriver with
    | .mysql => .ok .mysqlStats
    | t => .ok (.genericStats t)
  | .ok (.sqliteD _) => .ok (.genericStats c.defaultDriver)

/-- `Database.closeAll()`: awaits every driver's `close()` and then runs
`this.drivers.clear()`, emptying the registry.  Nothing in the class ever
repopulates the registry afterwards (`initializeDrivers` runs only from the
private constructor). -/
def closeAll (c : Client) : Client :=
  { mysqlDrv := none, sqliteDrv := none, defaultDriver := c.defaultDriver }

end Client

/-! ## Connection lifecycle of the networked driver

`MysqlDriver` (Mysql.ts) holds `connection : Pool | null` and
`isInitialized : boolean`.  Pools are modelled by the order in which
`createPool` constructs them: the driver state carries a supply counter
`nextPool`, and `createPool` hands out the current counter value as the new
pool's identity.  `createPool` success is assumed (its failure path only
logs and leaves `isInitialized` false). -/

/-- The `MysqlDriver` fields relevant to its connection lifecycle. -/
structure MysqlState where
  /-- `connection : Pool | null`, a pool identified by creation order. -/
  connection : Option Nat
  isInitialized : Bool
  /-- Identity `createPool` gives to the next pool it constructs. -/
  nextPool : Nat
deriving DecidableEq, Repr

/-- `MysqlDriver.initialize` (Mysql.ts lines 54–94): when `connection` is
null, `createPool` builds a fresh pool and `isInitialized` is set; when a
pool already exists, nothing happens. -/
def mysqlInitialize (s : MysqlState) : MysqlState :=
  match s.connection with
  | none =>
    { connection := some s.nextPool, isInitialized := true, nextPool := s.nextPool + 1 }
  | some _ => s

/-- The constructor (Mysql.ts lines 14–18): parses the connection string
(irrelevant here) and calls `initialize()` on the fresh instance. -/
def mysqlConstruct : MysqlState :=
  mysqlInitialize { connection := none, isInitialized := false, nextPool := 0 }

/-- `MysqlDriver.close` (Mysql.ts lines 194–204), with `pool.end()`
succeeding: nulls `connection` and clears `isInitialized`. -/
def mysqlClose (s : MysqlState) : MysqlState :=
  match s.connection with
  | some _ => { s with connection := none, isInitialized := false }
  | none => s

/-- `MysqlDriver.getConnection` (Mysql.ts lines 106–116):

```
if (!this.connection || !this.isInitialized) {
  this.initialize();
}
if (!this.connection) {
  throw new Error("MySQL connection pool is not available");
}
return this.connection;
```
-/
def mysqlGetConnection (s : MysqlState) : Except Err Nat × MysqlState :=
  let s1 :=
    if s.connection = none ∨ s.isInitialized = false then mysqlInitialize s else s
  match s1.connection with
  | none => (.error "MySQL connection pool is not available", s1)
  | some p => (.ok p, s1)

/-! ## Connection lifecycle of the embedded driver

`SQLiteDriver` (Sqlite.ts) holds `connection : Database`, assigned in the
constructor and never nulled — `close()` closes the handle but leaves the
field set, so the `if (!this.connection)` guard in `getConnection` (a
non-null object is truthy) never rebuilds. -/

/-- A `bun:sqlite` handle: its identity (creation order) and whether
`close()` has been called on it. -/
structure SqliteHandle where
  id : Nat
  closed : Bool
deriving DecidableEq, Repr

/-- The `SQLiteDriver` field relevant to its lifecycle. -/
structure SqliteState where
  /-- `connection : Database`; non-nullable, assigned in the constructor. -/
  connection : SqliteHandle
deriving DecidableEq, Repr

/-- The constructor (Sqlite.ts lines 14–18): opens handle 0. -/
def sqliteConstruct : SqliteState := { connection := { id := 0, closed := false } }

/-- `SQLiteDriver.close` (Sqlite.ts lines 135–144): `this.connection` is
always set, so the handle is closed; the field keeps pointing at the closed
handle. -/
def sqliteClose (s : SqliteState) : SqliteState :=
  { connection := { s.connection with closed := true } }

/-- `SQLiteDriver.getConnection` (Sqlite.ts lines 34–40): the
`if (!this.connection)` rebuild branch is dead — `connection` is a
non-nullable object, hence truthy — so the stored handle is returned
as-is, closed or not. -/
def sqliteGetConnection (s : SqliteState) : SqliteHandle × SqliteState :=
  (s.connection, s)

/-! ## Client initialization (`Database.initializeDrivers`)

`initializeDrivers` reads `process.env.DATABASE_TYPE` (defaulted to
`DEFAULT_DATABASE`) and `DATABASE_CONFIG.mysql.{host,user}`.  The
configuration record is the input of the model; JavaScript string
truthiness makes `""` count as a missing field. -/

/-- The slice of `DATABASE_CONFIG.mysql` that `initializeDrivers` reads. -/
structure MysqlConfig where
  host : String
  user : String
deriving DecidableEq, Repr

/-- Which driver entries `initializeDrivers` placed in the registry, and the
resulting `defaultDriver`. -/
structure InitResult where
  mysqlSet : Bool
  sqliteSet : Bool
  defaultDriver : DatabaseType
deriving DecidableEq, Repr

/-- `drivers.has(t)` on the registry built during initialization. -/
def InitResult.hasDriver (r : InitResult) : DatabaseType → Bool
  | .mysql => r.mysqlSet
  | .sqlite => r.sqliteSet

/-- `Database.initializeSQLite`: constructs the SQLite driver, registers it
and makes it the default. -/
def initializeSQLite (r : InitResult) : InitResult :=
  { r with sqliteSet := true, defaultDriver := .sqlite }

/-- `Database.initializeDrivers`:

```
const activeDatabase = process.env.DATABASE_TYPE || DEFAULT_DATABASE;
if (activeDatabase === "mysql") {
  if (DATABASE_CONFIG.mysql.host && DATABASE_CONFIG.mysql.user) {
    ... new MysqlDriver(...); drivers.set("mysql", ...); defaultDriver = "mysql";
  } else {
    log.error("MySQL is selected but configuration is incomplete, falling back to SQLite");
    this.initializeSQLite();
  }
} else {
  this.initializeSQLite();
}
if (!this.drivers.has(this.defaultDriver)) { ... throw ...; }
```

`envType` is `process.env.DATABASE_TYPE` (absent or the parsed kind) and
`dflt` is `DEFAULT_DATABASE`; `cfg` is `DATABASE_CONFIG.mysql`. -/
def initializeDrivers (envType : Option DatabaseType) (dflt : DatabaseType)
    (cfg : MysqlConfig) : Except Err InitResult :=
  let activeDatabase := envType.getD dflt
  let start : InitResult := { mysqlSet := false, sqliteSet := false, defaultDriver := dflt }
  let r :=
    if activeDatabase = .mysql then
      if cfg.host ≠ "" ∧ cfg.user ≠ "" then
        { start with mysqlSet := true, defaultDriver := .mysql }
      else
        initializeSQLite start
    else
      initializeSQLite start
  if r.hasDriver r.defaultDriver then .ok r
  else .error "Database driver is not available"

/-! ## Migration bootstrapping (`Database.runMigrations`)

`runMigrations` consults the backend's catalog through
`Database.tableExists` → driver `tableExists` (a query against
`sqlite_master` resp. `information_schema.tables`, whose row count is
exactly membership of the table name in the catalog), and issues the
backend-specific `CREATE TABLE` through `Database.execute`, which adds the
table to the catalog. -/

/-- The backend's table catalog. -/
structure Catalog where
  tables : List String
deriving DecidableEq, Repr

/-- The driver-level existence check (Sqlite.ts lines 158–169 /
Mysql.ts lines 243–255): the introspection query returns one row per
catalog table named `t`, and the driver reports whether that count is
positive. -/
def tableExistsCat (cat : Catalog) (t : String) : Bool :=
  (cat.tables.filter (fun x => x = t)).length > 0

/-- The `CREATE TABLE migrations` DDL built by `runMigrations`, with the
backend-specific auto-increment keyword. -/
def migrationsDdl (t : DatabaseType) : Sql :=
  "CREATE TABLE migrations ( id INTEGER PRIMARY KEY "
    ++ (match t with
        | .mysql => "AUTO_INCREMENT"
        | .sqlite => "AUTOINCREMENT")
    ++ ", name VARCHAR(255) NOT NULL, executed_at TIMESTAMP DEFAULT CURRENT_TIMESTAMP )"

/-- Executing a successful `CREATE TABLE migrations` adds the table to the
catalog. -/
def applyCreateMigrations (cat : Catalog) : Catalog :=
  { tables := cat.tables ++ ["migrations"] }

/-- `Database.runMigrations` (acting on backend kind `t` with catalog
`cat`): checks `tableExists("migrations")`; only when absent does it build
and execute the backend-specific DDL.  Returns the new catalog and the list
of DDL statements executed. -/
def runMigrations (t : DatabaseType) (cat : Catalog) : Catalog × List Sql :=
  if tableExistsCat cat "migrations" then (cat, [])
  else (applyCreateMigrations cat, [migrationsDdl t])

/-! ## Fixtures for witnesses -/

/-- Whether an outcome is a success. -/
def isOk : Except Err β → Bool
  | .ok _ => true
  | .error _ => false

/-- An embedded backend on which every statement succeeds: SELECTs return no
rows, mutations report 1 changed row with rowid 5. -/
def swOk : SqliteModel :=
  { allRows := fun _ _ => .ok []
    runRes := fun _ _ => .ok { lastInsertRowid := 5, changes := 1 } }

/-- An embedded backend whose SELECTs return one row `[("v", 1)]`. -/
def swOneRow : SqliteModel :=
  { allRows := fun _ _ => .ok [[("v", 1)]]
    runRes := fun _ _ => .ok { lastInsertRowid := 1, changes := 1 } }

/-- A networked backend on which every statement succeeds with no rows. -/
def mwEmpty : MysqlModel :=
  { queryRows := fun _ _ => .ok []
    execRes := fun _ _ => .ok () }

/-- A client whose active (and only) driver is `swOk`. -/
def cwSqlite : Client :=
  { mysqlDrv := none, sqliteDrv := some swOk, defaultDriver := .sqlite }

/-- A client whose active (and only) driver is `swOneRow`. -/
def cwOneRow : Client :=
  { mysqlDrv := none, sqliteDrv := some swOneRow, defaultDriver := .sqlite }

/-- `MysqlModel.ping` is success of the underlying `SELECT 1`. -/
theorem MysqlModel.ping_eq_isOk (m : MysqlModel) :
    m.ping = isOk (m.execRes "SELECT 1" []) := by
  cases h : m.execRes "SELECT 1" [] <;> simp [MysqlModel.ping, isOk, h]

/-- `SqliteModel.query` succeeds exactly when the underlying `stmt.all`
does. -/
theorem SqliteModel.query_isOk (s : SqliteModel) (sql : Sql) (ps : Params) :
    isOk (s.query sql ps) = isOk (s.allRows sql ps) := by
  cases h : s.allRows sql ps <;> simp [SqliteModel.query, isOk, h]

/-- After a successful `CREATE TABLE migrations`, the introspection query
reports the table as present. -/
theorem tableExistsCat_after_create (cat : Catalog) :
    tableExistsCat (applyCreateMigrations cat) "migrations" = true := by
  simp [tableExistsCat, applyCreateMigrations, List.filter_append]

/-! ## The claims -/

/-- C1.  With the transaction-control statements themselves healthy
(`noFaults`), both drivers' `transaction(fn)` begin exactly one
transaction, return `fn`'s own outcome, commit exactly when `fn` completes
without error, roll back exactly when `fn` raises, leave no transaction
open, and make `fn`'s writes durable exactly on the success path — on the
error path the committed writes are unchanged, so no partial write
performed inside `fn` before the raise remains visible. -/
theorem transaction_commits_iff_callback_succeeds
    (cb : Callback α) (st : TxState) :
    mysqlTransaction noFaults cb st =
      (cb.outcome,
        { committed := st.committed ++
            (match cb.outcome with | .ok _ => cb.writes | .error _ => [])
          pending := []
          txOpen := false
          begins := st.begins + 1
          commits := st.commits + (match cb.outcome with | .ok _ => 1 | .error _ => 0)
          rollbacks := st.rollbacks + (match cb.outcome with | .ok _ => 0 | .error _ => 1)
          releases := st.releases + 1 }) ∧
    sqliteTransaction noFaults cb st =
      (cb.outcome,
        { committed := st.committed ++
            (match cb.outcome with | .ok _ => cb.writes | .error _ => [])
          pending := []
          txOpen := false
          begins := st.begins + 1
          commits := st.commits + (match cb.outcome with | .ok _ => 1 | .error _ => 0)
          rollbacks := st.rollbacks + (match cb.outcome with | .ok _ => 0 | .error _ => 1)
          releases := st.releases }) := by
  cases h : cb.outcome <;>
    simp [mysqlTransaction, sqliteTransaction, beginTx, runCb, commitTx,
      rollbackTx, noFaults, h]

/-- C7.  On every path through `MysqlDriver.transaction` — success, callback
failure, begin/commit failure, and even a failing rollback — the `finally`
block runs and the acquired pool connection is released exactly once. -/
theorem transaction_releases_connection_once
    (f : Faults) (cb : Callback α) (st : TxState) :
    ((mysqlTransaction f cb st).2).releases = st.releases + 1 := by
  rcases f with ⟨fb, fc, fr⟩
  cases fb <;> cases fc <;> cases fr <;> cases h : cb.outcome <;>
    simp [mysqlTransaction, beginTx, runCb, commitTx, rollbackTx, h]

/-- C6 counterexample.  Callback fails with "callback failed" and the
rollback fails with "rollback failed": both drivers re-raise the rollback
failure, not the original callback failure. -/
theorem rollback_failure_masks_original_cex :
    (mysqlTransaction (α := Nat) ⟨none, none, some "rollback failed"⟩
        ⟨[1], .error "callback failed"⟩ tx0).1 = .error "rollback failed" ∧
    (mysqlTransaction (α := Nat) ⟨none, none, some "rollback failed"⟩
        ⟨[1], .error "callback failed"⟩ tx0).1 ≠ .error "callback failed" ∧
    (sqliteTransaction (α := Nat) ⟨none, none, some "rollback failed"⟩
        ⟨[1], .error "callback failed"⟩ tx0).1 = .error "rollback failed" := by
  refine ⟨rfl, ?_, rfl⟩
  intro h
  rw [show (mysqlTransaction (α := Nat) ⟨none, none, some "rollback failed"⟩
      ⟨[1], .error "callback failed"⟩ tx0).1 = .error "rollback failed" from rfl] at h
  simp at h

/-- C6 amended.  When the transactional callback fails and the rollback
succeeds, the original callback failure is re-raised; but when the rollback
itself also fails, the error re-raised from `transaction(fn)` is the
rollback failure, which masks the original callback failure (the `await
connection.rollback()` rejection pre-empts the `throw error` line; it is
neither caught nor logged). -/
theorem rollback_failure_masks_original {α : Type}
    (ws : List Nat) (e e2 : Err) (st : TxState) :
    (mysqlTransaction (α := α) noFaults ⟨ws, .error e⟩ st).1 = .error e ∧
    (sqliteTransaction (α := α) noFaults ⟨ws, .error e⟩ st).1 = .error e ∧
    (mysqlTransaction (α := α) ⟨none, none, some e2⟩ ⟨ws, .error e⟩ st).1
      = .error e2 ∧
    (sqliteTransaction (α := α) ⟨none, none, some e2⟩ ⟨ws, .error e⟩ st).1
      = .error e2 := by
  refine ⟨?_, ?_, ?_, ?_⟩ <;>
    simp [mysqlTransaction, sqliteTransaction, beginTx, runCb, commitTx,
      rollbackTx, noFaults]

/-- C2.  On an initialized client (the registry holds the active driver),
`healthCheck()` never throws and returns a mapping with exactly one key —
the active backend kind — whose value is `true` exactly when the backend's
trivial probe (`SELECT 1` through the pool, resp. against the embedded
handle) succeeds; and its result is unchanged for any client that agrees on
the active kind and active driver, so the inactive backend is never
attempted. -/
theorem healthCheck_probes_only_active_backend (c : Client) (d : Driver)
    (h : c.getDefaultDriver = .ok d) :
    ∃ b : Bool,
      c.healthCheck = .ok [(c.defaultDriver, b)] ∧
      (∀ m, c.defaultDriver = .mysql → d = .mysqlD m →
        b = isOk (m.execRes "SELECT 1" [])) ∧
      (∀ s, d = .sqliteD s → b = isOk (s.allRows "SELECT 1" [])) ∧
      (∀ c2 : Client, c2.defaultDriver = c.defaultDriver →
        c2.getDefaultDriver = .ok d → c2.healthCheck = c.healthCheck) := by
  cases d with
  | mysqlD m =>
    cases hdt : c.defaultDriver with
    | mysql =>
      refine ⟨m.ping, ?_, ?_, ?_, ?_⟩
      · simp [Client.healthCheck, h, hdt]
      · intro m' _ hm
        cases hm
        exact m.ping_eq_isOk
      · intro s hs
        cases hs
      · intro c2 hdt2 h2
        simp [Client.healthCheck, h, h2, hdt, hdt2]
    | sqlite =>
      refine ⟨isOk (m.queryRows "SELECT 1" []), ?_, ?_, ?_, ?_⟩
      · cases hq : m.queryRows "SELECT 1" [] <;>
          simp [Client.healthCheck, h, hdt, MysqlModel.query, isOk, hq]
      · intro m' hcon
        cases hcon
      · intro s hs
        cases hs
      · intro c2 hdt2 h2
        cases hq : m.queryRows "SELECT 1" [] <;>
          simp [Client.healthCheck, h, h2, hdt, hdt2, MysqlModel.query, isOk, hq]
  | sqliteD s =>
    refine ⟨isOk (s.allRows "SELECT 1" []), ?_, ?_, ?_, ?_⟩
    · cases hdt : c.defaultDriver <;>
        cases hq : s.allRows "SELECT 1" [] <;>
          simp [Client.healthCheck, h, hdt, SqliteModel.query, isOk, hq]
    · intro m _ hm
      cases hm
    · intro s' hs
      cases hs
      rfl
    · intro c2 hdt2 h2
      cases hdt : c.defaultDriver <;> rw [hdt] at hdt2 <;>
        cases hq : s.allRows "SELECT 1" [] <;>
          simp [Client.healthCheck, h, h2, hdt, hdt2, SqliteModel.query, isOk, hq]

/-- C2 witness: the concrete embedded client `cwSqlite` is initialized, and
the theorem instantiates on it. -/
theorem healthCheck_probes_only_active_backend_witness :
    cwSqlite.getDefaultDriver = .ok (.sqliteD swOk) ∧
    ∃ b : Bool,
      cwSqlite.healthCheck = .ok [(cwSqlite.defaultDriver, b)] ∧
      (∀ m, cwSqlite.defaultDriver = .mysql → Driver.sqliteD swOk = .mysqlD m →
        b = isOk (m.execRes "SELECT 1" [])) ∧
      (∀ s, Driver.sqliteD swOk = .sqliteD s → b = isOk (s.allRows "SELECT 1" [])) ∧
      (∀ c2 : Client, c2.defaultDriver = cwSqlite.defaultDriver →
        c2.getDefaultDriver = .ok (.sqliteD swOk) →
        c2.healthCheck = cwSqlite.healthCheck) :=
  ⟨rfl, healthCheck_probes_only_active_backend cwSqlite (.sqliteD swOk) rfl⟩

/-- C3.  `runMigrations` issues the backend-specific `CREATE TABLE` exactly
when the bookkeeping table is absent (as reported by introspection), at
most one statement per call; after one call the table exists, the second
call in succession issues nothing and leaves the catalog unchanged, and the
two calls together issue at most one `CREATE TABLE`. -/
theorem runMigrations_creates_at_most_once (t : DatabaseType) (cat : Catalog) :
    ((runMigrations t cat).2 ≠ [] ↔ tableExistsCat cat "migrations" = false) ∧
    ((runMigrations t cat).2 = [] ∨ (runMigrations t cat).2 = [migrationsDdl t]) ∧
    tableExistsCat (runMigrations t cat).1 "migrations" = true ∧
    runMigrations t (runMigrations t cat).1 = ((runMigrations t cat).1, []) ∧
    ((runMigrations t cat).2 ++ (runMigrations t (runMigrations t cat).1).2).length ≤ 1 := by
  by_cases hex : tableExistsCat cat "migrations"
  · simp [runMigrations, hex]
  · simp [runMigrations, hex, tableExistsCat_after_create]

/-- C4.  When the active driver's query succeeds with zero rows, the
client's `queryOne` returns the explicit `null` (`Option.none`), not a
thrown error and not an out-of-bounds index; with at least one row it
returns the first row.  The networked driver's own `queryOne` behaves the
same way. -/
theorem queryOne_empty_returns_null (c : Client) (m : MysqlModel)
    (sql : Sql) (ps : Params) :
    (c.query sql ps = .ok [] → c.queryOne sql ps = .ok none) ∧
    (∀ r rs, c.query sql ps = .ok (r :: rs) → c.queryOne sql ps = .ok (some r)) ∧
    (m.query sql ps = .ok [] → m.queryOne sql ps = .ok none) ∧
    (∀ r rs, m.query sql ps = .ok (r :: rs) → m.queryOne sql ps = .ok (some r)) := by
  refine ⟨?_, ?_, ?_, ?_⟩
  · intro h
    simp [Client.queryOne, h]
  · intro r rs h
    simp [Client.queryOne, h]
  · intro h
    simp [MysqlModel.queryOne, h]
  · intro r rs h
    simp [MysqlModel.queryOne, h]

/-- C4 witness: a zero-row query on the concrete client `cwSqlite` yields
`null`, a one-row query on `cwOneRow` yields its first row, and likewise
for the networked driver `mwEmpty`. -/
theorem queryOne_empty_returns_null_witness :
    cwSqlite.queryOne "SELECT v FROM t" [] = .ok none ∧
    cwOneRow.queryOne "SELECT v FROM t" [] = .ok (some [("v", 1)]) ∧
    mwEmpty.queryOne "SELECT v FROM t" [] = .ok none :=
  ⟨(queryOne_empty_returns_null cwSqlite mwEmpty "SELECT v FROM t" []).1 rfl,
   (queryOne_empty_returns_null cwOneRow mwEmpty "SELECT v FROM t" []).2.1
     [("v", 1)] [] rfl,
   (queryOne_empty_returns_null cwSqlite mwEmpty "SELECT v FROM t" []).2.2.1 rfl⟩

/-- C5.  On the embedded driver, a successful `query` returns the result
set with the summary `{ insertId: 0, affectedRows: row count, changedRows:
0 }`, and a successful `execute` returns an empty rows sequence with
`affectedRows` and `changedRows` both equal to the backend's real changed
count and `insertId` equal to the last-inserted rowid (0 when none). -/
theorem sqlite_query_execute_summaries (s : SqliteModel) (sql : Sql)
    (ps : Params) :
    (∀ rows, s.allRows sql ps = .ok rows →
      s.query sql ps =
        .ok (rows, { insertId := 0, affectedRows := rows.length, changedRows := 0 })) ∧
    (∀ r, s.runRes sql ps = .ok r →
      s.execute sql ps =
        .ok ([], { insertId := r.lastInsertRowid, affectedRows := r.changes
                   changedRows := r.changes })) := by
  constructor
  · intro rows h
    simp [SqliteModel.query, h]
  · intro r h
    by_cases h0 : r.lastInsertRowid = 0 <;>
      simp [SqliteModel.execute, h, h0]

/-- C5 witness: on the concrete embedded backend `swOk` (one changed row,
rowid 5), `query` and `execute` produce exactly the claimed shapes. -/
theorem sqlite_query_execute_summaries_witness :
    swOk.query "SELECT 1" [] =
      .ok ([], { insertId := 0, affectedRows := 0, changedRows := 0 }) ∧
    swOk.execute "INSERT INTO t (v) VALUES (?)" [1] =
      .ok ([], { insertId := 5, affectedRows := 1, changedRows := 1 }) :=
  ⟨(sqlite_query_execute_summaries swOk "SELECT 1" []).1 [] rfl,
   (sqlite_query_execute_summaries swOk "INSERT INTO t (v) VALUES (?)" [1]).2
     { lastInsertRowid := 5, changes := 1 } rfl⟩

/-- C8 counterexample.  Construct the networked driver (pool 0 is built),
call `close()` (pool nulled, `isInitialized` cleared) — and then a plain
`getConnection()` on the same instance succeeds again: it lazily rebuilds a
fresh pool (pool 1) and returns to the initialized state, contradicting the
claim that `Closed` is terminal. -/
theorem mysql_close_not_terminal_cex :
    (mysqlClose mysqlConstruct).connection = none ∧
    (mysqlClose mysqlConstruct).isInitialized = false ∧
    mysqlGetConnection (mysqlClose mysqlConstruct) =
      (.ok 1, { connection := some 1, isInitialized := true, nextPool := 2 }) := by
  refine ⟨rfl, rfl, rfl⟩

/-- C8 amended.  For the networked driver, `Closed` is not terminal: after
`close()` has nulled the pool, the next `getConnection()` re-runs
`initialize()`, constructs a fresh pool and returns the driver to the
initialized state — no new instance is needed.  For the embedded driver,
`close()` closes the handle but leaves the field set, and `getConnection()`
returns that same, now closed, handle without constructing a new one. -/
theorem close_lifecycle_behaviour (p n : Nat) (b : Bool) (ss : SqliteState) :
    mysqlGetConnection
        (mysqlClose { connection := some p, isInitialized := b, nextPool := n }) =
      (.ok n, { connection := some n, isInitialized := true, nextPool := n + 1 }) ∧
    sqliteGetConnection (sqliteClose ss) =
      ({ id := ss.connection.id, closed := true }, sqliteClose ss) ∧
    (sqliteGetConnection (sqliteClose ss)).1.closed = true ∧
    (sqliteGetConnection (sqliteClose ss)).1.id = ss.connection.id := by
  refine ⟨?_, rfl, rfl, rfl⟩
  simp [mysqlClose, mysqlGetConnection, mysqlInitialize]

/-- C9.  Whenever the selected backend is the networked one but the
configuration record lacks the host or the user (JavaScript falsy, i.e.
empty string), initialization does not throw: the fallback branch registers
only the embedded driver and makes it the default, so the active backend
after startup is `sqlite`. -/
theorem incomplete_mysql_config_falls_back_to_sqlite
    (envType : Option DatabaseType) (dflt : DatabaseType) (cfg : MysqlConfig)
    (hsel : envType.getD dflt = .mysql)
    (hmiss : cfg.host = "" ∨ cfg.user = "") :
    initializeDrivers envType dflt cfg =
      .ok { mysqlSet := false, sqliteSet := true, defaultDriver := .sqlite } := by
  rcases hmiss with hm | hm <;>
    simp [initializeDrivers, hsel, hm, initializeSQLite, InitResult.hasDriver]

/-- C9 witness: `DATABASE_TYPE=mysql` with an empty host falls back to the
embedded backend. -/
theorem incomplete_mysql_config_falls_back_to_sqlite_witness :
    initializeDrivers (some .mysql) .sqlite { host := "", user := "root" } =
      .ok { mysqlSet := false, sqliteSet := true, defaultDriver := .sqlite } :=
  incomplete_mysql_config_falls_back_to_sqlite (some .mysql) .sqlite
    { host := "", user := "root" } rfl (.inl rfl)

/-- C10.  After `closeAll()` the registry is empty (and, since only the
private constructor ever populates it, stays empty), so every driver-needing
operation on the same client — `query`, `execute`, `queryOne`,
`transaction`, `healthCheck`, `getStats` — throws the
"driver not available" error instead of reconnecting. -/
theorem closeAll_empties_registry_and_ops_fail (c : Client) (sql : Sql)
    (ps : Params) (f : Faults) (cb : Callback α) (st : TxState) :
    c.closeAll.mysqlDrv = none ∧
    c.closeAll.sqliteDrv = none ∧
    c.closeAll.getDefaultDriver =
      .error (Client.unavailableMsg c.defaultDriver) ∧
    c.closeAll.query sql ps = .error (Client.unavailableMsg c.defaultDriver) ∧
    c.closeAll.execute sql ps = .error (Client.unavailableMsg c.defaultDriver) ∧
    c.closeAll.queryOne sql ps = .error (Client.unavailableMsg c.defaultDriver) ∧
    c.closeAll.transaction f cb st =
      (.error (Client.unavailableMsg c.defaultDriver), st) ∧
    c.closeAll.healthCheck = .error (Client.unavailableMsg c.defaultDriver) ∧
    c.closeAll.getStats = .error (Client.unavailableMsg c.defaultDriver) := by
  cases h : c.defaultDriver <;>
    simp [Client.closeAll, Client.getDefaultDriver, Client.getDriver,
      Client.query, Client.execute, Client.queryOne, Client.transaction,
      Client.healthCheck, Client.getStats, h]

end Astra
